import Mathlib

/-!
# Verification of the kessel-sdk-go core against its specification

Shallow embedding of the SDK's core logic, translated from the Go sources:

* `kessel/auth/auth.go` — OAuth2 client-credentials token manager
  (`OAuth2ClientCredentials.GetToken`, `refreshToken`, `isTokenValid`).
* `kessel/inventory/internal/builder/builder.go` — generic gRPC client
  builder (fluent configuration calls and `Build`).
* `kessel/errors` package — sentinel-wrapping error type (`Wrap`, `Unwrap`,
  the `Is*` predicates).
* `kessel/rbac/v2/list_workspaces.go` — paginated streaming iterator
  (`ListWorkspaces`).
* `kessel/rbac/v2/workspace.go` — `fetchWorkspace` response handling.

Instants are modelled as natural numbers (seconds); network effects are
modelled by passing the environment's reply (token endpoint result, stream
scripts, HTTP response) as an explicit argument. The sequential model drops
mutexes and contexts, which only affect concurrency and cancellation.
-/

deriving instance DecidableEq for Except

namespace Kessel

/-! ## Token manager (`kessel/auth/auth.go`) -/

/-- `const expirationWindow = 300` (seconds). -/
def expirationWindow : Nat := 300

/-- `const defaultExpiresIn = 3600` (seconds). -/
def defaultExpiresIn : Nat := 3600

/-- `RefreshTokenResponse{AccessToken string; ExpiresAt time.Time}`.
`expiresAt` is seconds since epoch; the Go zero `time.Time` is modelled as `0`. -/
structure RefreshTokenResponse where
  accessToken : String
  expiresAt : Nat
deriving DecidableEq, Repr

/-- The Go zero value `RefreshTokenResponse{}`. -/
def RefreshTokenResponse.zero : RefreshTokenResponse := ⟨"", 0⟩

/-- The mutable fields of `OAuth2ClientCredentials` (the mutex is dropped in
this sequential model; `clientId`/`clientSecret`/`tokenEndpoint` are carried
so that the refresh request can be stated faithfully). -/
structure OAuth2ClientCredentials where
  clientId : String
  clientSecret : String
  tokenEndpoint : String
  cachedToken : RefreshTokenResponse
deriving DecidableEq, Repr

/-- `NewOAuth2ClientCredentials` from `auth.go`. -/
def NewOAuth2ClientCredentials (clientId clientSecret tokenEndpoint : String) :
    OAuth2ClientCredentials :=
  { clientId, clientSecret, tokenEndpoint, cachedToken := RefreshTokenResponse.zero }

/-- `GetTokenOptions` (the optional `HttpClient` field has no behavioural
content in the model). -/
structure GetTokenOptions where
  forceRefresh : Bool := false
deriving DecidableEq, Repr

/-- The token returned by `client.CallTokenEndpoint` on success:
`access_token` and `expires_in` (Go `int`, `0` both for an explicit zero and
for an absent field). -/
structure TokenEndpointToken where
  accessToken : String
  expiresIn : Nat
deriving DecidableEq, Repr

/-- The environment's reply at the token endpoint: either a transport /
non-2xx error (carried as a message) or a decoded token. -/
abbrev TokenEndpointReply := Except String TokenEndpointToken

/-- `OAuth2ClientCredentials.refreshToken`, with the network call
`client.CallTokenEndpoint` replaced by the explicit `reply` argument and the
current instant `now` passed explicitly. Mirrors the Go return convention:
on error it returns the zero `RefreshTokenResponse` together with the error. -/
def OAuth2ClientCredentials.refreshToken (reply : TokenEndpointReply) (now : Nat) :
    RefreshTokenResponse × Option String :=
  match reply with
  | .error e => (RefreshTokenResponse.zero, some e)
  | .ok token =>
      let expiresIn := if token.expiresIn = 0 then defaultExpiresIn else token.expiresIn
      ({ accessToken := token.accessToken, expiresAt := now + expiresIn }, none)

/-- `OAuth2ClientCredentials.isTokenValid`:
`AccessToken != "" && time.Now().Add(expirationWindow * time.Second).Before(ExpiresAt)`
(`Before` is strict). -/
def OAuth2ClientCredentials.isTokenValid (o : OAuth2ClientCredentials) (now : Nat) : Bool :=
  if o.cachedToken.accessToken = "" then false
  else decide (now + expirationWindow < o.cachedToken.expiresAt)

/-- Result of one `GetToken` call: the token manager's state after the call,
the returned token, the returned error, and whether the token endpoint was
called during this invocation. -/
structure GetTokenOutcome where
  state : OAuth2ClientCredentials
  result : RefreshTokenResponse
  error : Option String
  endpointCalled : Bool
deriving DecidableEq, Repr

/-- `OAuth2ClientCredentials.GetToken` from `auth.go`, sequentialised:
if `!ForceRefresh` and the cached token is valid, return the cache without a
network call; otherwise (under the mutex in the source) clear the cache when
`ForceRefresh`, call `refreshToken`, assign its result pair to
`(o.cachedToken, err)`, and return `o.cachedToken` with `err`. -/
def OAuth2ClientCredentials.GetToken (o : OAuth2ClientCredentials)
    (options : GetTokenOptions) (reply : TokenEndpointReply) (now : Nat) :
    GetTokenOutcome :=
  if !options.forceRefresh && o.isTokenValid now then
    { state := o, result := o.cachedToken, error := none, endpointCalled := false }
  else
    let o₁ := if options.forceRefresh then { o with cachedToken := RefreshTokenResponse.zero } else o
    let refreshed := OAuth2ClientCredentials.refreshToken reply now
    let o₂ := { o₁ with cachedToken := refreshed.1 }
    { state := o₂, result := o₂.cachedToken, error := refreshed.2, endpointCalled := true }

/-! ## gRPC client builder (`kessel/inventory/internal/builder/builder.go`) -/

/-- The security protocol reported by a `credentials.TransportCredentials`
value: `credentials.NewTLS(...)` reports `"tls"`, `insecure.NewCredentials()`
reports `"insecure"`. -/
inductive SecurityProtocol where
  | tls
  | insecureProtocol
deriving DecidableEq, Repr

/-- A `credentials.TransportCredentials` value, abstracted to the one
behaviourally relevant field. -/
structure TransportCredentials where
  protocol : SecurityProtocol
deriving DecidableEq, Repr

/-- `credentials.NewTLS(&tls.Config{})`. -/
def newTLSCredentials : TransportCredentials := ⟨SecurityProtocol.tls⟩

/-- `insecure.NewCredentials()`. -/
def newInsecureCredentials : TransportCredentials := ⟨SecurityProtocol.insecureProtocol⟩

/-- A `credentials.PerRPCCredentials` value. `oauth2` is the internal
`oauth2PerRPCCreds{creds, insecure}` of `builder.go`, whose
`RequireTransportSecurity()` returns `!insecure`; `external` is an arbitrary
caller-supplied implementation, abstracted to its
`RequireTransportSecurity()` answer. -/
inductive PerRPCCredentials where
  | oauth2 (creds : OAuth2ClientCredentials) (insecure : Bool)
  | external (requiresTransportSecurity : Bool)
deriving DecidableEq, Repr

/-- `RequireTransportSecurity()` on a `PerRPCCredentials` value. -/
def PerRPCCredentials.requireTransportSecurity : PerRPCCredentials → Bool
  | .oauth2 _ insecure => !insecure
  | .external r => r

/-- The state of `ClientBuilder[C]` (the `newStub` constructor carries no
logic and is dropped; `Build` returns a marker for the constructed pair). -/
structure ClientBuilder where
  target : String
  channelCredentials : TransportCredentials
  perRPCCredentials : Option PerRPCCredentials
  insecure : Bool
deriving DecidableEq, Repr

/-- `NewClientBuilder(target, newStub)`. -/
def NewClientBuilder (target : String) : ClientBuilder :=
  { target
    channelCredentials := newTLSCredentials
    perRPCCredentials := none
    insecure := false }

/-- `setChannelCredentialsOrDefault`: clears the `insecure` flag and installs
the given transport credentials, defaulting to fresh TLS credentials when the
argument is `nil`. -/
def ClientBuilder.setChannelCredentialsOrDefault (b : ClientBuilder)
    (channelCredentials : Option TransportCredentials) : ClientBuilder :=
  { b with
    insecure := false
    channelCredentials := channelCredentials.getD newTLSCredentials }

/-- `OAuth2ClientAuthenticated(oAuth2ClientCredentials, channelCredentials)`:
first `setChannelCredentialsOrDefault`, then, when the OAuth2 credentials are
non-nil, install an `oauth2PerRPCCreds` capturing the builder's (now cleared)
`insecure` flag. -/
def ClientBuilder.oAuth2ClientAuthenticated (b : ClientBuilder)
    (oAuth2ClientCredentials : Option OAuth2ClientCredentials)
    (channelCredentials : Option TransportCredentials) : ClientBuilder :=
  let b₁ := b.setChannelCredentialsOrDefault channelCredentials
  match oAuth2ClientCredentials with
  | some creds =>
      { b₁ with perRPCCredentials := some (PerRPCCredentials.oauth2 creds b₁.insecure) }
  | none => b₁

/-- `Authenticated(callCredentials, channelCredentials)`: installs the call
credentials (possibly `nil`) and then `setChannelCredentialsOrDefault`. -/
def ClientBuilder.authenticated (b : ClientBuilder)
    (callCredentials : Option PerRPCCredentials)
    (channelCredentials : Option TransportCredentials) : ClientBuilder :=
  { b with perRPCCredentials := callCredentials }.setChannelCredentialsOrDefault
    channelCredentials

/-- `Unauthenticated(channelCredentials)`: drops the call credentials and then
`setChannelCredentialsOrDefault`. -/
def ClientBuilder.unauthenticated (b : ClientBuilder)
    (channelCredentials : Option TransportCredentials) : ClientBuilder :=
  { b with perRPCCredentials := none }.setChannelCredentialsOrDefault channelCredentials

/-- `Insecure()`: sets the `insecure` flag, installs insecure transport
credentials, and discards any per-call credentials. -/
def ClientBuilder.insecureCall (b : ClientBuilder) : ClientBuilder :=
  { b with
    insecure := true
    channelCredentials := newInsecureCredentials
    perRPCCredentials := none }

/-- One fluent configuration call on the builder. -/
inductive BuilderCall where
  | oAuth2ClientAuthenticated (creds : Option OAuth2ClientCredentials)
      (channel : Option TransportCredentials)
  | authenticated (call : Option PerRPCCredentials) (channel : Option TransportCredentials)
  | unauthenticated (channel : Option TransportCredentials)
  | insecure
deriving DecidableEq, Repr

/-- Apply one fluent configuration call. -/
def ClientBuilder.applyCall (b : ClientBuilder) : BuilderCall → ClientBuilder
  | .oAuth2ClientAuthenticated creds channel => b.oAuth2ClientAuthenticated creds channel
  | .authenticated call channel => b.authenticated call channel
  | .unauthenticated channel => b.unauthenticated channel
  | .insecure => b.insecureCall

/-- Apply a sequence of fluent configuration calls, left to right. -/
def ClientBuilder.applyCalls (b : ClientBuilder) (calls : List BuilderCall) : ClientBuilder :=
  calls.foldl ClientBuilder.applyCall b

/-- Modelled from the spec: `Build` delegates connection construction to
`grpc.NewClient`, which is part of the gRPC library, not of this repository's
sources. The spec's safety policy for it: configuring "insecure transport
together with a credential source that requires transport security causes
`Build()` to return an error, not a connection"; otherwise construction
succeeds (lazily, with no handshake). -/
def grpcNewClient (channelCredentials : TransportCredentials)
    (perRPCCredentials : Option PerRPCCredentials) : Except String Unit :=
  match perRPCCredentials with
  | some c =>
      if channelCredentials.protocol = SecurityProtocol.insecureProtocol
          && c.requireTransportSecurity then
        .error "grpc: the credentials require transport level security"
      else .ok ()
  | none => .ok ()

/-- `ClientBuilder.Build()`: fails fast on an empty target, then constructs
the connection via `grpc.NewClient` (modelled above) with the configured
transport credentials and, when present, the per-call credentials; on success
returns the builder state standing in for the `(stub, conn)` pair. -/
def ClientBuilder.build (b : ClientBuilder) : Except String ClientBuilder :=
  if b.target = "" then .error "target URI is required"
  else
    match grpcNewClient b.channelCredentials b.perRPCCredentials with
    | .error e => .error ("failed to create gRPC client: " ++ e)
    | .ok _ => .ok b

/-! ## Sentinel-wrapping errors (`kessel/errors/errors.go`) -/

/-- A Go `error` value as the `kessel/errors` package manipulates it.

* `base msg` — an `errors.New(msg)` sentinel or cause (identity modelled by
  message; adequate while distinct error values carry distinct messages).
* `fmtWrap inner rest` — `fmt.Errorf` whose format starts with `%w`: wraps
  `inner`, and its `Error()` is `inner.Error() ++ rest` (`rest` holds the
  `%v`-formatted remainder, which is plain text and not unwrappable).
* `kessel code msg cause` — the package's `*Error{Code, Message, Cause}`. -/
inductive GoError where
  | base (msg : String)
  | fmtWrap (inner : GoError) (rest : String)
  | kessel (code : Nat) (msg : String) (cause : Option GoError)

/-- Equality of Go error values (`==` in `errors.Is`); pointer identity is
modelled structurally, which matches Go as long as distinct `errors.New`
values carry distinct messages. -/
def GoError.beq : GoError → GoError → Bool
  | .base m₁, .base m₂ => m₁ == m₂
  | .fmtWrap i₁ r₁, .fmtWrap i₂ r₂ => GoError.beq i₁ i₂ && r₁ == r₂
  | .kessel c₁ m₁ (some x), .kessel c₂ m₂ (some y) =>
      c₁ == c₂ && m₁ == m₂ && GoError.beq x y
  | .kessel c₁ m₁ none, .kessel c₂ m₂ none => c₁ == c₂ && m₁ == m₂
  | _, _ => false

instance : BEq GoError := ⟨GoError.beq⟩

/-- `Error()` on a `GoError`: for `*Error` it is `Message: Cause` when the
cause is non-nil, else `Message`. -/
def GoError.errorText : GoError → String
  | .base msg => msg
  | .fmtWrap inner rest => inner.errorText ++ rest
  | .kessel _ msg (some cause) => msg ++ ": " ++ cause.errorText
  | .kessel _ msg none => msg

/-- `Unwrap`: `fmt.Errorf("%w...")` unwraps to the wrapped error, and
`(*Error).Unwrap` returns `e.Cause`; other errors do not unwrap. -/
def GoError.unwrap : GoError → Option GoError
  | .fmtWrap inner _ => some inner
  | .kessel _ _ cause => cause
  | .base _ => none

/-- `errors.Is(err, target)`: `==` on each element of the unwrap chain. -/
def GoError.is : GoError → GoError → Bool
  | e@(.fmtWrap inner _), target => e == target || inner.is target
  | e@(.kessel _ _ (some cause)), target => e == target || cause.is target
  | e, target => e == target

/-- `codes.Unknown`. -/
def codeUnknown : Nat := 2

/-- `status.FromError(cause)` as `Wrap` uses it: a `*Error` cause exposes its
own code through `GRPCStatus()`; for the other modelled error shapes the code
stays `codes.Unknown`. -/
def statusCodeFromError : GoError → Nat
  | .kessel code _ _ => code
  | _ => codeUnknown

/-- The sentinel `ErrTokenRetrieval = errors.New("token retrieval failed")`. -/
def ErrTokenRetrieval : GoError := .base "token retrieval failed"

/-- The sentinel `ErrConnectionFailed = errors.New("connection failed")`. -/
def ErrConnectionFailed : GoError := .base "connection failed"

/-- `errors.Wrap(sentinel, cause, message)`: `nil` cause gives `nil`;
otherwise a `*Error` whose `Cause` is `fmt.Errorf("%w: %v", sentinel, cause)`
— the sentinel is wrapped with `%w`, the cause is flattened to text by `%v`. -/
def Wrap (sentinel : GoError) (cause : Option GoError) (message : String) :
    Option GoError :=
  match cause with
  | none => none
  | some c =>
      some (.kessel (statusCodeFromError c) message
        (some (.fmtWrap sentinel (": " ++ c.errorText))))

/-- `IsTokenError(err) = errors.Is(err, ErrTokenRetrieval)`. -/
def IsTokenError (e : GoError) : Bool := e.is ErrTokenRetrieval

/-! ## Workspace pagination (`kessel/rbac/v2/list_workspaces.go`, `utils.go`) -/

/-- `v1beta2.RepresentationType` (the fields `utils.go` populates). -/
structure RepresentationType where
  resourceType : String
  reporterType : Option String
deriving DecidableEq, Repr

/-- `WorkspaceType()` from `utils.go`. -/
def WorkspaceType : RepresentationType :=
  { resourceType := "workspace", reporterType := some "rbac" }

/-- `v1beta2.ReporterReference` (the field `utils.go` populates). -/
structure ReporterReference where
  type : String
deriving DecidableEq, Repr

/-- `v1beta2.ResourceReference` (the fields `utils.go` populates). -/
structure ResourceReference where
  resourceType : String
  resourceId : String
  reporter : Option ReporterReference
deriving DecidableEq, Repr

/-- `v1beta2.SubjectReference` (the fields `utils.go` populates). -/
structure SubjectReference where
  resource : Option ResourceReference
  relation : Option String := none
deriving DecidableEq, Repr

/-- `PrincipalResource(id, domain)` from `utils.go`. -/
def PrincipalResource (id domain : String) : ResourceReference :=
  { resourceType := "principal"
    resourceId := domain ++ "/" ++ id
    reporter := some { type := "rbac" } }

/-- `PrincipalSubject(id, domain)` from `utils.go`. -/
def PrincipalSubject (id domain : String) : SubjectReference :=
  { resource := some (PrincipalResource id domain) }

/-- `v1beta2.RequestPagination` (limit and optional continuation token). -/
structure RequestPagination where
  limit : Nat
  continuationToken : Option String
deriving DecidableEq, Repr

/-- `v1beta2.ResponsePagination`. -/
structure ResponsePagination where
  continuationToken : String
deriving DecidableEq, Repr

/-- `v1beta2.StreamedListObjectsResponse`, abstracted to its pagination and
an opaque payload identifier distinguishing responses. -/
structure StreamedListObjectsResponse where
  payload : Nat
  pagination : Option ResponsePagination
deriving DecidableEq, Repr

/-- `v1beta2.StreamedListObjectsRequest` (the fields `ListWorkspaces`
populates). -/
structure StreamedListObjectsRequest where
  objectType : RepresentationType
  relation : String
  subject : SubjectReference
  pagination : Option RequestPagination
deriving DecidableEq, Repr

/-- The request `ListWorkspaces` builds for the current continuation token:
pagination is attached only when the token is non-empty, and then carries
`Limit: 1000` and the token. -/
def buildListRequest (relation : String) (subject : SubjectReference)
    (continuationToken : String) : StreamedListObjectsRequest :=
  { objectType := WorkspaceType
    relation
    subject
    pagination :=
      if continuationToken = "" then none
      else some { limit := 1000, continuationToken := some continuationToken } }

/-- One outcome of `stream.Recv()` scripted by the environment: a response or
a non-`io.EOF` error; the end of the script is `io.EOF`. -/
inductive RecvOutcome where
  | resp (r : StreamedListObjectsResponse)
  | err (e : String)
deriving DecidableEq, Repr

/-- The environment's reply to one `StreamedListObjects` call: a start-stream
error or the scripted sequence of `Recv` outcomes. -/
abbrev StreamScript := Except String (List RecvOutcome)

/-- An item yielded to the consumer: `(response, nil)` or `(nil, err)`. -/
abbrev YieldItem := Except String StreamedListObjectsResponse

/-- The inner `for` loop of `ListWorkspaces` over one stream, with the
consumer always pulling: returns the yielded items, the tracked `lastToken`
(updated from each response whose `Pagination` is non-nil), and whether a
receive error aborted the whole iteration. -/
def recvLoop : List RecvOutcome → String →
    List YieldItem × String × Bool
  | [], lastToken => ([], lastToken, false)
  | .resp r :: rest, lastToken =>
      let nextToken := match r.pagination with
        | some p => p.continuationToken
        | none => lastToken
      let t := recvLoop rest nextToken
      (.ok r :: t.1, t.2)
  | .err e :: _, lastToken =>
      ([.error ("error receiving from stream: " ++ e)], lastToken, true)

/-- The trace of one `ListWorkspaces` iteration: the items yielded to the
consumer, the `StreamedListObjects` requests issued in order, and whether the
scripted environment was exhausted while the loop still needed another call. -/
structure PagerTrace where
  items : List YieldItem
  requests : List StreamedListObjectsRequest
  starved : Bool
deriving DecidableEq, Repr

/-- The outer `for` loop of `ListWorkspaces`: build the request for the
current token, start the stream (scripted), drain it with `recvLoop`, and
either stop (start error, receive error, or empty `lastToken`) or loop with
`lastToken` as the new continuation token. Each loop iteration consumes one
stream script; running out of scripts marks the trace starved. -/
def listWorkspacesGo (relation : String) (subject : SubjectReference) :
    List StreamScript → String → PagerTrace
  | [], continuationToken =>
      { items := []
        requests := [buildListRequest relation subject continuationToken]
        starved := true }
  | script :: rest, continuationToken =>
      let request := buildListRequest relation subject continuationToken
      match script with
      | .error e =>
          { items := [.error ("failed to start stream: " ++ e)]
            requests := [request]
            starved := false }
      | .ok outcomes =>
          let page := recvLoop outcomes ""
          if page.2.2 then
            { items := page.1, requests := [request], starved := false }
          else if page.2.1 = "" then
            { items := page.1, requests := [request], starved := false }
          else
            let t := listWorkspacesGo relation subject rest page.2.1
            { items := page.1 ++ t.items
              requests := request :: t.requests
              starved := t.starved }

/-- `ListWorkspaces(ctx, inventory, subject, relation, continuationToken)`
with the inventory client replaced by its scripted replies and the consumer
always pulling. -/
def ListWorkspaces (subject : SubjectReference) (relation : String)
    (continuationToken : String) (scripts : List StreamScript) : PagerTrace :=
  listWorkspacesGo relation subject scripts continuationToken

/-! ## Workspace lookup (`kessel/rbac/v2/workspace.go`) -/

/-- `Workspace` from `workspace.go`. -/
structure Workspace where
  id : String
  name : String
  type : String
  description : String
deriving DecidableEq, Repr

/-- The environment's reply to the workspace `GET`: HTTP status code, and the
body as either a JSON-unmarshal failure or the decoded `data` array. -/
structure WorkspaceHttpReply where
  statusCode : Nat
  body : Except String (List Workspace)
deriving DecidableEq, Repr

/-- The decision logic of `fetchWorkspace` after the HTTP exchange: non-200
status fails; an unmarshal failure fails; a decoded `data` array of length
other than one fails; otherwise `&Data[0]` is returned. -/
def fetchWorkspace (workspaceType : String) (reply : WorkspaceHttpReply) :
    Except String Workspace :=
  if reply.statusCode ≠ 200 then
    .error ("error fetching " ++ workspaceType ++ " workspace - http status "
      ++ toString reply.statusCode)
  else
    match reply.body with
    | .error e => .error ("error unmarshalling response: " ++ e)
    | .ok data =>
        if h : data.length = 1 then
          .ok (data.get ⟨0, by omega⟩)
        else
          .error ("unexpected number of " ++ workspaceType ++ " workspaces: "
            ++ toString data.length)

/-- `FetchRootWorkspace` delegates to `fetchWorkspace` with type `"root"`. -/
def FetchRootWorkspace (reply : WorkspaceHttpReply) : Except String Workspace :=
  fetchWorkspace "root" reply

/-- `FetchDefaultWorkspace` delegates to `fetchWorkspace` with type
`"default"`. -/
def FetchDefaultWorkspace (reply : WorkspaceHttpReply) : Except String Workspace :=
  fetchWorkspace "default" reply

/-! ## Theorems: token manager -/

/-- Validity unfolded: non-empty access token and `now + 300 < expiresAt`
(strict). -/
theorem isTokenValid_iff (o : OAuth2ClientCredentials) (now : Nat) :
    o.isTokenValid now = true ↔
      o.cachedToken.accessToken ≠ "" ∧
        now + expirationWindow < o.cachedToken.expiresAt := by
  unfold OAuth2ClientCredentials.isTokenValid
  split
  · simp [*]
  · simp [*]

/-- Shared computation rule: the cache-hit branch of `GetToken`. -/
theorem getToken_hit (o : OAuth2ClientCredentials) (options : GetTokenOptions)
    (reply : TokenEndpointReply) (now : Nat)
    (h : (!options.forceRefresh && o.isTokenValid now) = true) :
    o.GetToken options reply now =
      { state := o, result := o.cachedToken, error := none,
        endpointCalled := false } := by
  unfold OAuth2ClientCredentials.GetToken
  simp [h]

/-- Shared computation rule: the refresh branch of `GetToken`. -/
theorem getToken_miss (o : OAuth2ClientCredentials) (options : GetTokenOptions)
    (reply : TokenEndpointReply) (now : Nat)
    (h : (!options.forceRefresh && o.isTokenValid now) = false) :
    o.GetToken options reply now =
      { state :=
          { (if options.forceRefresh then
                { o with cachedToken := RefreshTokenResponse.zero }
              else o) with
            cachedToken := (OAuth2ClientCredentials.refreshToken reply now).1 }
        result := (OAuth2ClientCredentials.refreshToken reply now).1
        error := (OAuth2ClientCredentials.refreshToken reply now).2
        endpointCalled := true } := by
  unfold OAuth2ClientCredentials.GetToken
  simp only [h, Bool.false_eq_true, if_false]

/-- C3: with `ForceRefresh = false`, `GetToken` returns the cached token with
no token-endpoint call exactly when the cache is valid (non-empty access
token and `now + 300 < expiresAt`, strictly); in every other case it calls
the endpoint, stores the refresh result in the cache, and returns it together
with the refresh error. -/
theorem getToken_cache_policy (o : OAuth2ClientCredentials)
    (options : GetTokenOptions) (reply : TokenEndpointReply) (now : Nat) :
    ((o.GetToken options reply now).endpointCalled = false ↔
      options.forceRefresh = false ∧ o.cachedToken.accessToken ≠ "" ∧
        now + 300 < o.cachedToken.expiresAt)
    ∧ ((o.GetToken options reply now).endpointCalled = false →
        o.GetToken options reply now =
          { state := o, result := o.cachedToken, error := none,
            endpointCalled := false })
    ∧ ((o.GetToken options reply now).endpointCalled = true →
        (o.GetToken options reply now).state.cachedToken =
            (OAuth2ClientCredentials.refreshToken reply now).1
          ∧ (o.GetToken options reply now).result =
            (OAuth2ClientCredentials.refreshToken reply now).1
          ∧ (o.GetToken options reply now).error =
            (OAuth2ClientCredentials.refreshToken reply now).2) := by
  by_cases hcond : (!options.forceRefresh && o.isTokenValid now) = true
  · have heq := getToken_hit o options reply now hcond
    have hforce : options.forceRefresh = false := by
      have := (Bool.and_eq_true _ _).mp hcond
      simpa using this.1
    have hvalid := (isTokenValid_iff o now).mp ((Bool.and_eq_true _ _).mp hcond).2
    have h300 : now + 300 < o.cachedToken.expiresAt := hvalid.2
    rw [heq]
    refine ⟨?_, ?_, ?_⟩
    · exact ⟨fun _ => ⟨hforce, hvalid.1, h300⟩, fun _ => rfl⟩
    · intro _; rfl
    · intro h; cases h
  · have hcond' : (!options.forceRefresh && o.isTokenValid now) = false := by
      simpa using hcond
    have heq := getToken_miss o options reply now hcond'
    rw [heq]
    refine ⟨?_, ?_, ?_⟩
    · constructor
      · intro h; cases h
      · intro ⟨hforce, haccess, hexp⟩
        exfalso
        apply hcond
        have hv : o.isTokenValid now = true := (isTokenValid_iff o now).mpr ⟨haccess, hexp⟩
        simp [hforce, hv]
    · intro h; cases h
    · intro _; exact ⟨rfl, rfl, rfl⟩

/-- Witness for C3: a fresh manager (empty cache) calls the endpoint and
caches the fresh token. -/
theorem getToken_cache_policy_witness :
    ((NewOAuth2ClientCredentials "id" "secret" "ep").GetToken {}
        (.ok ⟨"fresh", 3600⟩) 1000).endpointCalled = true
      ∧ ((NewOAuth2ClientCredentials "id" "secret" "ep").GetToken {}
          (.ok ⟨"fresh", 3600⟩) 1000).state.cachedToken =
        (OAuth2ClientCredentials.refreshToken (.ok ⟨"fresh", 3600⟩) 1000).1 := by
  have h := getToken_cache_policy (NewOAuth2ClientCredentials "id" "secret" "ep")
    {} (.ok ⟨"fresh", 3600⟩) 1000
  have hcalled : ((NewOAuth2ClientCredentials "id" "secret" "ep").GetToken {}
      (.ok ⟨"fresh", 3600⟩) 1000).endpointCalled = true := by decide
  exact ⟨hcalled, (h.2.2 hcalled).1⟩

/-- C4: a successful refresh stores `expiresAt = now + expires_in`, with the
default of 3600 seconds when the server's `expires_in` is zero or absent. -/
theorem refresh_expiresAt (o : OAuth2ClientCredentials)
    (options : GetTokenOptions) (token : TokenEndpointToken) (now : Nat)
    (h : options.forceRefresh = true ∨ o.isTokenValid now = false) :
    (o.GetToken options (.ok token) now).error = none
      ∧ (o.GetToken options (.ok token) now).state.cachedToken.accessToken =
          token.accessToken
      ∧ (token.expiresIn ≠ 0 →
          (o.GetToken options (.ok token) now).state.cachedToken.expiresAt =
            now + token.expiresIn)
      ∧ (token.expiresIn = 0 →
          (o.GetToken options (.ok token) now).state.cachedToken.expiresAt =
            now + 3600) := by
  have hcond : (!options.forceRefresh && o.isTokenValid now) = false := by
    rcases h with h | h <;> simp [h]
  rw [getToken_miss o options (.ok token) now hcond]
  unfold OAuth2ClientCredentials.refreshToken
  refine ⟨rfl, rfl, ?_, ?_⟩
  · intro hne
    simp [hne, defaultExpiresIn]
  · intro hzero
    simp [hzero, defaultExpiresIn]

/-- Witness for C4: refresh at instant 50 with `expires_in = 0` stores
`expiresAt = 50 + 3600`. -/
theorem refresh_expiresAt_witness :
    ((NewOAuth2ClientCredentials "id" "secret" "ep").GetToken
        { forceRefresh := true } (.ok ⟨"tok", 0⟩) 50).state.cachedToken.expiresAt =
      50 + 3600 := by
  have h := refresh_expiresAt (NewOAuth2ClientCredentials "id" "secret" "ep")
    { forceRefresh := true } ⟨"tok", 0⟩ 50 (Or.inl rfl)
  exact h.2.2.2 rfl

/-- C1 counterexample: with a previously stored (expired) token `"old"` and a
failing refresh, `GetToken` returns the error but the cached token is **not**
left in its prior state — it is overwritten with the zero token. -/
theorem getToken_refresh_failure_counterexample :
    (({ clientId := "id", clientSecret := "secret", tokenEndpoint := "ep",
          cachedToken := ⟨"old", 100⟩ } : OAuth2ClientCredentials).GetToken {}
        (.error "boom") 1000).error = some "boom"
      ∧ (({ clientId := "id", clientSecret := "secret", tokenEndpoint := "ep",
            cachedToken := ⟨"old", 100⟩ } : OAuth2ClientCredentials).GetToken {}
          (.error "boom") 1000).state.cachedToken ≠ (⟨"old", 100⟩ : RefreshTokenResponse) := by
  constructor
  · rfl
  · decide

/-- C1 amended: when the refresh path is taken and the endpoint call fails,
`GetToken` returns that error, and the cached token is set to the zero token
(not its prior value); the zero token is invalid at every instant, so a
subsequent call takes the refresh path again. -/
theorem getToken_refresh_failure (o : OAuth2ClientCredentials)
    (options : GetTokenOptions) (now : Nat) (e : String)
    (h : options.forceRefresh = true ∨ o.isTokenValid now = false) :
    (o.GetToken options (.error e) now).error = some e
      ∧ (o.GetToken options (.error e) now).state.cachedToken =
          RefreshTokenResponse.zero
      ∧ (∀ now' : Nat,
          (o.GetToken options (.error e) now).state.isTokenValid now' = false)
      ∧ (∀ (options' : GetTokenOptions) (reply' : TokenEndpointReply) (now' : Nat),
          ((o.GetToken options (.error e) now).state.GetToken options' reply'
            now').endpointCalled = true) := by
  have hcond : (!options.forceRefresh && o.isTokenValid now) = false := by
    rcases h with h | h <;> simp [h]
  rw [getToken_miss o options (.error e) now hcond]
  have hzeroInvalid : ∀ (o' : OAuth2ClientCredentials) (now' : Nat),
      o'.cachedToken = RefreshTokenResponse.zero → o'.isTokenValid now' = false := by
    intro o' now' hz
    unfold OAuth2ClientCredentials.isTokenValid
    rw [hz]
    rfl
  refine ⟨rfl, rfl, ?_, ?_⟩
  · intro now'
    exact hzeroInvalid _ now' rfl
  · intro options' reply' now'
    have hcond₂ : (!options'.forceRefresh &&
        OAuth2ClientCredentials.isTokenValid
          { (if options.forceRefresh then
                { o with cachedToken := RefreshTokenResponse.zero }
              else o) with
            cachedToken := (OAuth2ClientCredentials.refreshToken (.error e) now).1 }
          now') = false := by
      rw [hzeroInvalid _ now' rfl, Bool.and_false]
    rw [getToken_miss _ options' reply' now' hcond₂]

/-- Witness for C1 (amended): concrete failing refresh over a non-empty
cache. -/
theorem getToken_refresh_failure_witness :
    (({ clientId := "id", clientSecret := "secret", tokenEndpoint := "ep",
          cachedToken := ⟨"old", 100⟩ } : OAuth2ClientCredentials).GetToken {}
        (.error "boom") 1000).error = some "boom"
      ∧ (({ clientId := "id", clientSecret := "secret", tokenEndpoint := "ep",
            cachedToken := ⟨"old", 100⟩ } : OAuth2ClientCredentials).GetToken {}
          (.error "boom") 1000).state.cachedToken = RefreshTokenResponse.zero := by
  have h := getToken_refresh_failure
    { clientId := "id", clientSecret := "secret", tokenEndpoint := "ep",
      cachedToken := ⟨"old", 100⟩ } {} 1000 "boom" (Or.inr (by decide))
  exact ⟨h.1, h.2.1⟩

/-! ## Theorems: client builder -/

/-- The builder safety invariant: the `Insecure()` mode never coexists with
per-call credentials. -/
def ClientBuilder.credInvariant (b : ClientBuilder) : Prop :=
  b.insecure = true → b.perRPCCredentials = none

/-- Every single fluent call re-establishes the safety invariant, whatever
the starting state. -/
theorem applyCall_credInvariant (b : ClientBuilder) (call : BuilderCall) :
    (b.applyCall call).credInvariant := by
  unfold ClientBuilder.credInvariant
  cases call with
  | oAuth2ClientAuthenticated creds channel =>
      cases creds <;>
        simp [ClientBuilder.applyCall, ClientBuilder.oAuth2ClientAuthenticated,
          ClientBuilder.setChannelCredentialsOrDefault]
  | authenticated call channel =>
      simp [ClientBuilder.applyCall, ClientBuilder.authenticated,
        ClientBuilder.setChannelCredentialsOrDefault]
  | unauthenticated channel =>
      simp [ClientBuilder.applyCall, ClientBuilder.unauthenticated,
        ClientBuilder.setChannelCredentialsOrDefault]
  | insecure =>
      simp [ClientBuilder.applyCall, ClientBuilder.insecureCall]

/-- The safety invariant is preserved by every configuration sequence. -/
theorem applyCalls_credInvariant (b : ClientBuilder) (calls : List BuilderCall)
    (h : b.credInvariant) : (b.applyCalls calls).credInvariant := by
  induction calls generalizing b with
  | nil => exact h
  | cons c cs ih =>
      show ((b.applyCall c).applyCalls cs).credInvariant
      exact ih _ (applyCall_credInvariant b c)

/-- C10: after any sequence of fluent calls starting from `NewClientBuilder`,
`insecure = true` implies there are no per-call credentials; `Insecure()`
discards previously configured per-call credentials, and each
credential-setting call switches the builder back to non-insecure
transport. -/
theorem builder_insecure_invariant :
    (∀ (target : String) (calls : List BuilderCall),
        ((NewClientBuilder target).applyCalls calls).insecure = true →
          ((NewClientBuilder target).applyCalls calls).perRPCCredentials = none)
    ∧ (∀ b : ClientBuilder, b.insecureCall.perRPCCredentials = none)
    ∧ (∀ (b : ClientBuilder) (creds : Option OAuth2ClientCredentials)
        (channel : Option TransportCredentials),
        (b.oAuth2ClientAuthenticated creds channel).insecure = false)
    ∧ (∀ (b : ClientBuilder) (call : Option PerRPCCredentials)
        (channel : Option TransportCredentials),
        (b.authenticated call channel).insecure = false)
    ∧ (∀ (b : ClientBuilder) (channel : Option TransportCredentials),
        (b.unauthenticated channel).insecure = false) := by
  refine ⟨?_, fun _ => rfl, ?_, fun _ _ _ => rfl, fun _ _ => rfl⟩
  · intro target calls
    exact applyCalls_credInvariant (NewClientBuilder target) calls (fun h => nomatch h)
  · intro b creds channel
    cases creds <;> rfl

/-- Witness for C10: after `Authenticated` followed by `Insecure()`, the
per-call credentials are gone. -/
theorem builder_insecure_invariant_witness :
    ((NewClientBuilder "localhost:9000").applyCalls
        [BuilderCall.authenticated (some (PerRPCCredentials.external true)) none,
          BuilderCall.insecure]).insecure = true
      ∧ ((NewClientBuilder "localhost:9000").applyCalls
          [BuilderCall.authenticated (some (PerRPCCredentials.external true)) none,
            BuilderCall.insecure]).perRPCCredentials = none := by
  have h := builder_insecure_invariant.1 "localhost:9000"
    [BuilderCall.authenticated (some (PerRPCCredentials.external true)) none,
      BuilderCall.insecure]
  exact ⟨rfl, h rfl⟩

/-- C2: any configuration sequence that leaves the builder with insecure
transport credentials together with per-call credentials that require
transport security makes `Build()` return an error, not a stub/connection
pair (the rejection itself is performed by `grpc.NewClient`, modelled from
the spec). -/
theorem build_rejects_insecure_with_credentials (target : String)
    (calls : List BuilderCall) (c : PerRPCCredentials)
    (hins : ((NewClientBuilder target).applyCalls calls).channelCredentials.protocol =
      SecurityProtocol.insecureProtocol)
    (hcreds : ((NewClientBuilder target).applyCalls calls).perRPCCredentials = some c)
    (hreq : c.requireTransportSecurity = true) :
    ∃ e, ((NewClientBuilder target).applyCalls calls).build = .error e := by
  unfold ClientBuilder.build
  by_cases htarget : ((NewClientBuilder target).applyCalls calls).target = ""
  · exact ⟨"target URI is required", by simp [htarget]⟩
  · refine ⟨"failed to create gRPC client: " ++
      "grpc: the credentials require transport level security", ?_⟩
    simp [htarget, grpcNewClient, hcreds, hins, hreq]

/-- Witness for C2: passing insecure transport credentials explicitly to
`OAuth2ClientAuthenticated` leaves insecure transport combined with
security-requiring OAuth2 per-call credentials, and `Build()` errors. -/
theorem build_rejects_insecure_with_credentials_witness :
    ((NewClientBuilder "localhost:9000").applyCalls
        [BuilderCall.oAuth2ClientAuthenticated
          (some (NewOAuth2ClientCredentials "id" "secret" "ep"))
          (some newInsecureCredentials)]).channelCredentials.protocol =
        SecurityProtocol.insecureProtocol
      ∧ ((NewClientBuilder "localhost:9000").applyCalls
          [BuilderCall.oAuth2ClientAuthenticated
            (some (NewOAuth2ClientCredentials "id" "secret" "ep"))
            (some newInsecureCredentials)]).perRPCCredentials =
        some (PerRPCCredentials.oauth2 (NewOAuth2ClientCredentials "id" "secret" "ep") false)
      ∧ (PerRPCCredentials.oauth2 (NewOAuth2ClientCredentials "id" "secret" "ep")
          false).requireTransportSecurity = true
      ∧ ∃ e, ((NewClientBuilder "localhost:9000").applyCalls
          [BuilderCall.oAuth2ClientAuthenticated
            (some (NewOAuth2ClientCredentials "id" "secret" "ep"))
            (some newInsecureCredentials)]).build = .error e := by
  refine ⟨rfl, rfl, rfl, ?_⟩
  exact build_rejects_insecure_with_credentials "localhost:9000"
    [BuilderCall.oAuth2ClientAuthenticated
      (some (NewOAuth2ClientCredentials "id" "secret" "ep"))
      (some newInsecureCredentials)]
    (PerRPCCredentials.oauth2 (NewOAuth2ClientCredentials "id" "secret" "ep") false)
    rfl rfl rfl

/-! ## Theorems: workspace pagination -/

/-- Computation rule: one loop iteration over a successfully started
stream. -/
theorem listWorkspacesGo_cons_ok (relation : String) (subject : SubjectReference)
    (outcomes : List RecvOutcome) (rest : List StreamScript) (tok : String) :
    listWorkspacesGo relation subject (.ok outcomes :: rest) tok =
      if (recvLoop outcomes "").2.2 = true then
        { items := (recvLoop outcomes "").1
          requests := [buildListRequest relation subject tok]
          starved := false }
      else if (recvLoop outcomes "").2.1 = "" then
        { items := (recvLoop outcomes "").1
          requests := [buildListRequest relation subject tok]
          starved := false }
      else
        { items := (recvLoop outcomes "").1 ++
            (listWorkspacesGo relation subject rest (recvLoop outcomes "").2.1).items
          requests := buildListRequest relation subject tok ::
            (listWorkspacesGo relation subject rest (recvLoop outcomes "").2.1).requests
          starved :=
            (listWorkspacesGo relation subject rest (recvLoop outcomes "").2.1).starved } :=
  rfl

/-- Every trace's first issued request is the one built from the starting
token. -/
theorem listWorkspacesGo_requests_head (relation : String)
    (subject : SubjectReference) (scripts : List StreamScript) (tok : String) :
    (listWorkspacesGo relation subject scripts tok).requests.head? =
      some (buildListRequest relation subject tok) := by
  cases scripts with
  | nil => rfl
  | cons s rest =>
      cases s with
      | error e => rfl
      | ok outcomes =>
          unfold listWorkspacesGo
          by_cases h1 : (recvLoop outcomes "").2.2 = true
          · simp [h1]
          · by_cases h2 : (recvLoop outcomes "").2.1 = "" <;>
              simp [h1, h2]

/-- C5: when a page's stream is received cleanly, the pager stops exactly
when the tracked continuation token is empty — an empty token means the trace
is the page's items with the single request already issued, regardless of any
further scripted streams; a non-empty token means exactly one more
`StreamedListObjects` call follows, whose request carries that token as
`pagination.continuationToken`. -/
theorem pagination_termination (relation : String) (subject : SubjectReference)
    (outcomes : List RecvOutcome) (rest : List StreamScript) (tok : String)
    (hclean : (recvLoop outcomes "").2.2 = false) :
    ((recvLoop outcomes "").2.1 = "" →
        listWorkspacesGo relation subject (.ok outcomes :: rest) tok =
          { items := (recvLoop outcomes "").1
            requests := [buildListRequest relation subject tok]
            starved := false })
    ∧ ((recvLoop outcomes "").2.1 ≠ "" →
        (listWorkspacesGo relation subject (.ok outcomes :: rest) tok).items =
            (recvLoop outcomes "").1 ++
              (listWorkspacesGo relation subject rest (recvLoop outcomes "").2.1).items
          ∧ (listWorkspacesGo relation subject (.ok outcomes :: rest) tok).requests =
            buildListRequest relation subject tok ::
              (listWorkspacesGo relation subject rest (recvLoop outcomes "").2.1).requests
          ∧ (listWorkspacesGo relation subject rest
              (recvLoop outcomes "").2.1).requests.head? =
            some (buildListRequest relation subject (recvLoop outcomes "").2.1)
          ∧ (buildListRequest relation subject (recvLoop outcomes "").2.1).pagination =
            some { limit := 1000,
                   continuationToken := some (recvLoop outcomes "").2.1 }) := by
  constructor
  · intro hempty
    rw [listWorkspacesGo_cons_ok]
    simp [hclean, hempty]
  · intro hne
    refine ⟨?_, ?_, listWorkspacesGo_requests_head relation subject rest _, ?_⟩
    · rw [listWorkspacesGo_cons_ok]
      simp [hclean, hne]
    · rw [listWorkspacesGo_cons_ok]
      simp [hclean, hne]
    · simp [buildListRequest, hne]

/-- Witness for C5: a first page delivering token `"next-page-token"` makes
the pager issue exactly the two requests, the second carrying that token. -/
theorem pagination_termination_witness :
    (recvLoop [RecvOutcome.resp ⟨0, some ⟨"next-page-token"⟩⟩] "").2.2 = false
      ∧ (recvLoop [RecvOutcome.resp ⟨0, some ⟨"next-page-token"⟩⟩] "").2.1 ≠ ""
      ∧ (listWorkspacesGo "member" (PrincipalSubject "user123" "redhat")
          [.ok [RecvOutcome.resp ⟨0, some ⟨"next-page-token"⟩⟩], .ok []]
          "").requests =
        buildListRequest "member" (PrincipalSubject "user123" "redhat") "" ::
          (listWorkspacesGo "member" (PrincipalSubject "user123" "redhat")
            [.ok []] "next-page-token").requests
      ∧ (buildListRequest "member" (PrincipalSubject "user123" "redhat")
          "next-page-token").pagination =
        some { limit := 1000, continuationToken := some "next-page-token" } := by
  have h := pagination_termination "member" (PrincipalSubject "user123" "redhat")
    [RecvOutcome.resp ⟨0, some ⟨"next-page-token"⟩⟩] [.ok []] "" (by decide)
  have hne : (recvLoop [RecvOutcome.resp ⟨0, some ⟨"next-page-token"⟩⟩] "").2.1 ≠ "" := by
    decide
  exact ⟨by decide, hne, (h.2 hne).2.1, (h.2 hne).2.2.2⟩

/-- C6 counterexample: on the first call with an empty starting token, the
request carries **no** pagination at all — in particular no limit — refuting
"a limit is always included in the request's pagination". -/
theorem request_limit_counterexample :
    (ListWorkspaces (PrincipalSubject "user123" "redhat") "member" ""
        [.ok [RecvOutcome.resp ⟨0, some ⟨""⟩⟩]]).requests.map
      (fun r => r.pagination) = [none] := by
  rfl

/-- Every request a trace issues is `buildListRequest` at some token. -/
theorem listWorkspacesGo_requests_mem (relation : String)
    (subject : SubjectReference) (scripts : List StreamScript) :
    ∀ (tok : String) (r : StreamedListObjectsRequest),
      r ∈ (listWorkspacesGo relation subject scripts tok).requests →
        ∃ t, r = buildListRequest relation subject t := by
  induction scripts with
  | nil =>
      intro tok r hr
      simp only [listWorkspacesGo, List.mem_singleton] at hr
      exact ⟨tok, hr⟩
  | cons s rest ih =>
      intro tok r hr
      cases s with
      | error e =>
          simp only [listWorkspacesGo, List.mem_singleton] at hr
          exact ⟨tok, hr⟩
      | ok outcomes =>
          rw [listWorkspacesGo_cons_ok] at hr
          by_cases h1 : (recvLoop outcomes "").2.2 = true
          · simp [h1] at hr
            exact ⟨tok, hr⟩
          · have h1' : (recvLoop outcomes "").2.2 = false := by
              simpa using h1
            by_cases h2 : (recvLoop outcomes "").2.1 = ""
            · simp [h1', h2] at hr
              exact ⟨tok, hr⟩
            · simp [h1', h2, List.mem_cons] at hr
              rcases hr with hr | hr
              · exact ⟨tok, hr⟩
              · exact ih _ r hr

/-- C6 amended: every request issued by `ListWorkspaces` carries the
workspace object type, the given relation and subject, and pagination exactly
when the call's current token is non-empty — in that case it consists of
limit 1000 and that token; on a call with an empty token (in particular the
first call when no start token is given) the request carries no pagination
and hence no limit. -/
theorem request_shape (relation : String) (subject : SubjectReference)
    (scripts : List StreamScript) (tok : String)
    (r : StreamedListObjectsRequest)
    (hr : r ∈ (listWorkspacesGo relation subject scripts tok).requests) :
    r.objectType = WorkspaceType ∧ r.relation = relation ∧ r.subject = subject
      ∧ ∃ t, r = buildListRequest relation subject t
          ∧ r.pagination = (if t = "" then none
              else some { limit := 1000, continuationToken := some t }) := by
  obtain ⟨t, rfl⟩ := listWorkspacesGo_requests_mem relation subject scripts tok r hr
  exact ⟨rfl, rfl, rfl, t, rfl, rfl⟩

/-- Witness for C6 (amended): the single request of a one-page trace carries
the workspace type and no pagination. -/
theorem request_shape_witness :
    buildListRequest "member" (PrincipalSubject "user123" "redhat") "" ∈
      (listWorkspacesGo "member" (PrincipalSubject "user123" "redhat")
        [.ok [RecvOutcome.resp ⟨0, some ⟨""⟩⟩]] "").requests
      ∧ (buildListRequest "member" (PrincipalSubject "user123" "redhat")
          "").objectType = WorkspaceType
      ∧ (buildListRequest "member" (PrincipalSubject "user123" "redhat")
          "").pagination = none := by
  have hmem : buildListRequest "member" (PrincipalSubject "user123" "redhat") "" ∈
      (listWorkspacesGo "member" (PrincipalSubject "user123" "redhat")
        [.ok [RecvOutcome.resp ⟨0, some ⟨""⟩⟩]] "").requests := by
    decide
  have h := request_shape "member" (PrincipalSubject "user123" "redhat")
    [.ok [RecvOutcome.resp ⟨0, some ⟨""⟩⟩]] ""
    (buildListRequest "member" (PrincipalSubject "user123" "redhat") "") hmem
  exact ⟨hmem, h.1, by decide⟩

/-- A receive error in mid-stream yields the responses received so far in
order, then exactly one error item, and aborts. -/
theorem recvLoop_err (goods : List StreamedListObjectsResponse) (e : String)
    (junk : List RecvOutcome) : ∀ lastToken : String,
    (recvLoop (goods.map RecvOutcome.resp ++ RecvOutcome.err e :: junk)
          lastToken).1 =
        goods.map Except.ok ++
          [Except.error ("error receiving from stream: " ++ e)]
      ∧ (recvLoop (goods.map RecvOutcome.resp ++ RecvOutcome.err e :: junk)
          lastToken).2.2 = true := by
  induction goods with
  | nil => intro lastToken; exact ⟨rfl, rfl⟩
  | cons g gs ih =>
      intro lastToken
      simp only [List.map_cons, List.cons_append, recvLoop]
      exact ⟨by simp [(ih _).1], (ih _).2⟩

/-- C7: a failed stream start yields exactly one error item and terminates
the whole sequence with no further RPC; a receive failure other than `io.EOF`
yields the responses received so far in order followed by exactly one error
item, then terminates with no further receive (outcomes scripted after the
error are ignored) and no further RPC (later scripted streams are ignored). -/
theorem stream_error_terminates (relation : String) (subject : SubjectReference)
    (tok e : String) (rest : List StreamScript) :
    (listWorkspacesGo relation subject (.error e :: rest) tok =
        { items := [.error ("failed to start stream: " ++ e)]
          requests := [buildListRequest relation subject tok]
          starved := false })
    ∧ (∀ (goods : List StreamedListObjectsResponse) (junk : List RecvOutcome),
        listWorkspacesGo relation subject
            (.ok (goods.map RecvOutcome.resp ++ RecvOutcome.err e :: junk)
              :: rest) tok =
          { items := goods.map Except.ok ++
              [.error ("error receiving from stream: " ++ e)]
            requests := [buildListRequest relation subject tok]
            starved := false }) := by
  constructor
  · rfl
  · intro goods junk
    have h := recvLoop_err goods e junk ""
    unfold listWorkspacesGo
    simp [h.2, h.1]

/-- Witness for C7: one good response, then a receive error; the consumer
sees the response then the single error item, and only one request was
issued. -/
theorem stream_error_terminates_witness :
    listWorkspacesGo "member" (PrincipalSubject "user123" "redhat")
        [.ok [RecvOutcome.resp ⟨7, none⟩, RecvOutcome.err "broken pipe"],
          .ok []] "" =
      { items := [Except.ok ⟨7, none⟩,
          Except.error "error receiving from stream: broken pipe"]
        requests := [buildListRequest "member"
          (PrincipalSubject "user123" "redhat") ""]
        starved := false } := by
  have h := (stream_error_terminates "member" (PrincipalSubject "user123" "redhat")
    "" "broken pipe" [.ok []]).2 [⟨7, none⟩] []
  simpa using h

/-! ## Theorems: error wrapping -/

/-- C8 counterexample: wrapping a network-error cause with
`Wrap(ErrTokenRetrieval, cause, ...)` gives an error whose kind predicate
holds, but `errors.Is` against the original cause is `false` — the cause is
flattened to text by `%v` and is not in the unwrap chain. -/
theorem wrap_cause_counterexample :
    (Wrap ErrTokenRetrieval (some (GoError.base "network error"))
        "failed to retrieve token").map IsTokenError = some true
      ∧ (Wrap ErrTokenRetrieval (some (GoError.base "network error"))
          "failed to retrieve token").map
        (fun err => err.is (GoError.base "network error")) = some false := by
  constructor
  · rfl
  · rfl

/-- C8 amended: for base-error sentinels and causes with distinct messages,
the wrapper satisfies the sentinel's kind check (`errors.Is` against the
sentinel is `true`, independently of the message), and the cause's message is
preserved in the error text, but the cause itself is not recoverable by
unwrapping: `errors.Is` against the original cause is `false`. -/
theorem wrap_sentinel_not_cause (s c message : String) (hne : s ≠ c) :
    ∃ err, Wrap (GoError.base s) (some (GoError.base c)) message = some err
      ∧ err.is (GoError.base s) = true
      ∧ err.is (GoError.base c) = false
      ∧ err.errorText = message ++ ": " ++ (s ++ (": " ++ c)) := by
  refine ⟨GoError.kessel codeUnknown message
    (some (GoError.fmtWrap (GoError.base s) (": " ++ c))), rfl, ?_, ?_, rfl⟩
  · show (GoError.kessel codeUnknown message
        (some (GoError.fmtWrap (GoError.base s) (": " ++ c)))).is
        (GoError.base s) = true
    simp [GoError.is, BEq.beq, GoError.beq]
  · show (GoError.kessel codeUnknown message
        (some (GoError.fmtWrap (GoError.base s) (": " ++ c)))).is
        (GoError.base c) = false
    simp [GoError.is, BEq.beq, GoError.beq, hne]

/-- Witness for C8 (amended): the token-retrieval sentinel over a network
error. -/
theorem wrap_sentinel_not_cause_witness :
    ∃ err, Wrap (GoError.base "token retrieval failed")
        (some (GoError.base "network error")) "failed to retrieve token" =
        some err
      ∧ err.is (GoError.base "token retrieval failed") = true
      ∧ err.is (GoError.base "network error") = false
      ∧ err.errorText = "failed to retrieve token" ++ ": " ++
          ("token retrieval failed" ++ (": " ++ "network error")) :=
  wrap_sentinel_not_cause "token retrieval failed" "network error"
    "failed to retrieve token" (by decide)

/-! ## Theorems: workspace lookup -/

/-- C9: on a 200 response with a decoded `data` array, `fetchWorkspace`
succeeds exactly when the array holds exactly one workspace — that workspace
is returned — and any other count produces an error. -/
theorem workspace_count_policy (workspaceType : String) (data : List Workspace) :
    ((∃ w, fetchWorkspace workspaceType ⟨200, .ok data⟩ = .ok w) ↔
        data.length = 1)
      ∧ (∀ w, data = [w] →
          fetchWorkspace workspaceType ⟨200, .ok data⟩ = .ok w)
      ∧ (data.length ≠ 1 →
          ∃ e, fetchWorkspace workspaceType ⟨200, .ok data⟩ = .error e) := by
  refine ⟨⟨?_, ?_⟩, ?_, ?_⟩
  · intro ⟨w, hw⟩
    by_contra hlen
    simp [fetchWorkspace, hlen] at hw
  · intro hlen
    refine ⟨data.get ⟨0, by omega⟩, ?_⟩
    simp [fetchWorkspace, hlen]
  · intro w hw
    subst hw
    simp [fetchWorkspace]
  · intro hlen
    exact ⟨"unexpected number of " ++ workspaceType ++ " workspaces: "
      ++ toString data.length, by simp [fetchWorkspace, hlen]⟩

/-- Witness for C9: a two-element `data` array is rejected; a one-element
array returns its workspace. -/
theorem workspace_count_policy_witness :
    (∃ e, fetchWorkspace "root"
        ⟨200, .ok [⟨"a", "n", "root", "d"⟩, ⟨"b", "n", "root", "d"⟩]⟩ =
        .error e)
      ∧ fetchWorkspace "root" ⟨200, .ok [⟨"a", "n", "root", "d"⟩]⟩ =
        .ok ⟨"a", "n", "root", "d"⟩ := by
  constructor
  · exact (workspace_count_policy "root"
      [⟨"a", "n", "root", "d"⟩, ⟨"b", "n", "root", "d"⟩]).2.2 (by decide)
  · exact (workspace_count_policy "root" [⟨"a", "n", "root", "d"⟩]).2.1
      ⟨"a", "n", "root", "d"⟩ rfl

end Kessel
